import Mathlib

/-!
Verification of the recursive-copy library (package `copy`, file `copy.go`).

The Go code is shallowly embedded over an *ideal filesystem*: a source tree
is a value of the mutual inductive `FSNode`/`Entries`; the copy functions
return the node created at the (fresh, previously non-existent) destination
path, an optional error, and a trace of the filesystem-mutating syscalls
they issued, in order.  Primitive filesystem operations that cannot fail on
a fresh destination with an intact source (MkdirAll, Create, Open, Readlink
of a symlink, ReadDir of a directory, io.Copy, Symlink, and the chmod a
process performs on a file it just created) are modelled as succeeding;
the three attribute-restoration syscalls of the post-copy step (Chmod,
Lchown, Chtimes) are given explicit, caller-chosen outcomes through
`RestoreEnv`, because the claims about the attribute restorer quantify over
their failures.  File modes are `os.FileMode` values: a permission part
below 0o1000 (modelled as `Fin 512`) plus the `os.Mode*` type bits.
-/

/-- os.ModeDir = 1 << 31 -/
def modeDir : Nat := 2147483648

/-- os.ModeSymlink = 1 << 27 -/
def modeSymlink : Nat := 134217728

/-- os.ModeDevice = 1 << 26 -/
def modeDevice : Nat := 67108864

/-- os.ModeNamedPipe = 1 << 25 -/
def modeNamedPipe : Nat := 33554432

/-- os.ModeSocket = 1 << 24 -/
def modeSocket : Nat := 16777216

/-- os.ModeCharDevice = 1 << 21 -/
def modeCharDevice : Nat := 2097152

/-- os.ModeIrregular = 1 << 19 -/
def modeIrregular : Nat := 524288

/-- os.ModeType = ModeDir | ModeSymlink | ModeNamedPipe | ModeSocket | ModeDevice | ModeCharDevice | ModeIrregular -/
def modeType : Nat :=
  modeDir + modeSymlink + modeNamedPipe + modeSocket + modeDevice + modeCharDevice + modeIrregular

/-- Constant `tmpPermissionForDirectory = os.FileMode(0755)` (copy.go line 17). -/
def tmpPermissionForDirectory : Nat := 0o755

/-- Test `info.Mode().IsRegular()`: mode & os.ModeType == 0. -/
def isRegularMode (mode : Nat) : Bool := mode &&& modeType == 0

/-- Test `info.IsDir()`: mode & os.ModeDir != 0. -/
def isDirMode (mode : Nat) : Bool := mode &&& modeDir != 0

/-- The platform-specific `*syscall.Stat_t` data reachable through `info.Sys()`:
owner, group, and access time. -/
structure SysStat where
  uid : Nat
  gid : Nat
  atimeSec : Int
  atimeNsec : Int
  deriving DecidableEq

/-- Per-entry metadata of a source `os.FileInfo` beyond its type: permission
bits (`Mode().Perm()`, below 0o1000), the optional platform stat data, and the
modification time. -/
structure Meta where
  perm : Fin 512
  sys : Option SysStat
  mtime : Int
  deriving DecidableEq

mutual

/-- An entry of the ideal filesystem: regular file (with byte content),
directory (with named children), symbolic link (with its target string), or
a special entry (socket, pipe, device, ...) carrying its `os.Mode*` type
bits. -/
inductive FSNode : Type where
  | file (m : Meta) (content : List Nat)
  | dir (m : Meta) (children : Entries)
  | symlink (m : Meta) (target : String)
  | special (m : Meta) (typeBits : Nat)
  deriving DecidableEq

/-- The ordered children of a directory, as `ioutil.ReadDir` would list
them. -/
inductive Entries : Type where
  | nil : Entries
  | cons (name : String) (node : FSNode) (rest : Entries)
  deriving DecidableEq

end

/-- The metadata of a node. -/
def metaOf : FSNode → Meta
  | .file m _ => m
  | .dir m _ => m
  | .symlink m _ => m
  | .special m _ => m

/-- Value `info.Mode()` of a node: type bits plus permission bits. -/
def modeOf : FSNode → Nat
  | .file m _ => m.perm.val
  | .dir m _ => modeDir + m.perm.val
  | .symlink m _ => modeSymlink + m.perm.val
  | .special m t => t + m.perm.val

/-- Value `info.Mode().Perm()` of a node. -/
def permOf (n : FSNode) : Nat := (metaOf n).perm.val

/-- The four process-wide boolean switches of copy.go lines 20-29, read
(never written) during a copy. -/
structure Policy where
  IgnoreUnsupportedFileTypes : Bool
  PreservePermissions : Bool
  PreserveOwner : Bool
  PreserveTime : Bool
  deriving DecidableEq

/-- Outcomes of the three attribute-restoration syscalls (`os.Chmod`,
`os.Lchown`, `os.Chtimes`): `none` means the call succeeds, `some msg` means
it fails with error message `msg`. -/
structure RestoreEnv where
  chmodErr : Option String
  lchownErr : Option String
  chtimesErr : Option String
  deriving DecidableEq

mutual

/-- One collected attribute-restoration failure (the `fmt.Errorf`-wrapped
errors appended to `errs` in copy.go lines 87-132).  Each constructor keeps
the underlying error message; the no-platform-data constructors wrap the
value the local variable `err` had at that point, exactly as the `%w` verb
does in the source. -/
inductive TaskErr : Type where
  | permFail (perm : Nat) (dest : String) (under : String)
  | ownerFail (uid gid : Nat) (dest : String) (under : String)
  | ownerNoStat (dest : String) (stale : StaleErr)
  | timeFail (mtime : Int) (dest : String) (under : String)
  | timeNoStat (dest : String) (stale : StaleErr)
  deriving DecidableEq

/-- The value of the Go local variable `err` at the moment a
no-platform-data failure wraps it with `%w`: either nil or an earlier
restoration failure. -/
inductive StaleErr : Type where
  | nil : StaleErr
  | wrap (e : TaskErr) : StaleErr
  deriving DecidableEq

end

/-- View of an optional task error as the wrapped `err` operand of
`fmt.Errorf("...: %w", dest, err)`. -/
def staleOf : Option TaskErr → StaleErr
  | none => .nil
  | some e => .wrap e

/-- The errors a copy can return: `*UnsupportedFileTypeError` (mode, path),
`*FileCopyTasksError` (path, collected task errors), or a raw operating
system error. -/
inductive CErr : Type where
  | unsupported (mode : Nat) (path : String)
  | tasks (path : String) (errs : List TaskErr)
  | sysErr (msg : String)
  deriving DecidableEq

/-- The type assertion `err.(*UnsupportedFileTypeError)` of copy.go lines 47
and 197. -/
def isUnsupported : CErr → Bool
  | .unsupported _ _ => true
  | _ => false

/-- A filesystem-mutating syscall, recorded in order of execution. -/
inductive Event : Type where
  | mkdirAll (path : String) (perm : Nat)
  | create (path : String)
  | chmod (path : String) (perm : Nat)
  | symlink (target : String) (path : String)
  | lchown (path : String) (uid gid : Nat)
  | chtimes (path : String)
  deriving DecidableEq

/-- Result of copying one entry: the node now present at the destination
path (if any), the returned error (if any), and the syscall trace. -/
structure CopyOut where
  node : Option FSNode
  err : Option CErr
  trace : List Event
  deriving DecidableEq

/-- Result of the per-child loop of `dcopy`: the children now present in the
destination directory, the loop's error, and the syscall trace. -/
structure WalkOut where
  nodes : Entries
  err : Option CErr
  trace : List Event
  deriving DecidableEq

/-- Function `filepath.Dir`, up to the normalisation irrelevant to the claims: the
part of the path before its last separator. -/
def parentOf (p : String) : String :=
  String.mk (((p.data.reverse.dropWhile fun c => c ≠ '/').drop 1).reverse)

/-- Function `fcopy` (copy.go lines 147-171): ensure the parent directory exists
(`os.MkdirAll(filepath.Dir(dest), os.ModePerm)`), create the destination
file, chmod it to `info.Mode()`, and stream the source bytes into it.  On
the ideal filesystem all of this succeeds when `info` is a regular file;
when it is not (unreachable through the dispatcher), `io.Copy` from the
opened source fails and the created empty file is left behind. -/
def fcopy (src dest : String) (info : FSNode) : CopyOut :=
  match info with
  | .file m content =>
      { node := some (.file ⟨m.perm, none, 0⟩ content)
        err := none
        trace := [.mkdirAll (parentOf dest) 0o777, .create dest, .chmod dest m.perm.val] }
  | _ =>
      { node := some (.file ⟨(metaOf info).perm, none, 0⟩ [])
        err := some (.sysErr ("read " ++ src))
        trace := [.mkdirAll (parentOf dest) 0o777, .create dest, .chmod dest (permOf info)] }

/-- The metadata `os.Symlink` gives a newly created link (fixed 0o777
permission, no recorded platform data). -/
def linkMeta : Meta := ⟨511, none, 0⟩

/-- Function `lcopy` (copy.go lines 213-219): `os.Readlink(src)` then
`os.Symlink(target, dest)` — the target string is re-created verbatim. -/
def lcopy (src dest : String) (info : FSNode) : CopyOut :=
  match info with
  | .symlink _ target =>
      { node := some (.symlink linkMeta target)
        err := none
        trace := [.symlink target dest] }
  | _ =>
      { node := none, err := some (.sysErr ("readlink " ++ src)), trace := [] }

/-- The shape of an entry of `FileTypeCopyHandlers`. -/
abbrev Handler := String → String → FSNode → CopyOut

/-- Registry `FileTypeCopyHandlers` (copy.go lines 33-35): the type-handler table,
seeded with the symlink handler. -/
def FileTypeCopyHandlers : List (Nat × Handler) := [(modeSymlink, lcopy)]

/-- The handler loop of copy.go lines 70-75: run the first handler whose
type bit intersects `info.Mode()`, if any. -/
def runHandlers (hs : List (Nat × Handler)) (src dest : String) (info : FSNode) : CopyOut :=
  match hs with
  | [] => { node := none, err := none, trace := [] }
  | (fileType, h) :: rest =>
      if modeOf info &&& fileType ≠ 0 then h src dest info
      else runHandlers rest src dest info

/-- The attribute-restoration step of the dispatcher (copy.go lines 87-141),
run on `(dest, info)` after a successful content copy.  Each of the three
categories is gated by its own flag; a failure is appended to `errs` and
does not stop the later categories; the Go local `err` is threaded exactly
as in the source (in particular the no-platform-data errors wrap its stale
value).  Returns the error the dispatcher returns (`nil` or a
`*FileCopyTasksError` carrying `dest` and the collected list) and the trace
of restoration syscalls that succeeded. -/
def restoreAttributes (pol : Policy) (env : RestoreEnv) (dest : String) (info : FSNode) :
    Option CErr × List Event :=
  let permStep : Option TaskErr × List TaskErr × List Event :=
    if pol.PreservePermissions then
      match env.chmodErr with
      | some g => (some (.permFail (permOf info) dest g), [.permFail (permOf info) dest g], [])
      | none => (none, [], [Event.chmod dest (permOf info)])
    else (none, [], [])
  let errP : Option TaskErr := permStep.1
  let stat : Option SysStat :=
    if pol.PreserveOwner || pol.PreserveTime then (metaOf info).sys else none
  let ownerStep : Option TaskErr × List TaskErr × List Event :=
    if pol.PreserveOwner then
      match stat with
      | some s =>
          match env.lchownErr with
          | some g => (some (.ownerFail s.uid s.gid dest g), [.ownerFail s.uid s.gid dest g], [])
          | none => (none, [], [Event.lchown dest s.uid s.gid])
      | none => (some (.ownerNoStat dest (staleOf errP)), [.ownerNoStat dest (staleOf errP)], [])
    else (errP, [], [])
  let errO : Option TaskErr := ownerStep.1
  let timeStep : List TaskErr × List Event :=
    if pol.PreserveTime then
      match stat with
      | some _ =>
          match env.chtimesErr with
          | some g => ([.timeFail (metaOf info).mtime dest g], [])
          | none => ([], [Event.chtimes dest])
      | none => ([.timeNoStat dest (staleOf errO)], [])
    else ([], [])
  let errs : List TaskErr := permStep.2.1 ++ ownerStep.2.1 ++ timeStep.1
  let tr : List Event := permStep.2.2 ++ ownerStep.2.2 ++ timeStep.2
  (if errs.isEmpty then none else some (.tasks dest errs), tr)

/-- The effect of a successful `os.Chmod(dest, info.Mode().Perm())` on the
destination node. -/
def setPerm (p : Fin 512) : FSNode → FSNode
  | .file m c => .file ⟨p, m.sys, m.mtime⟩ c
  | .dir m cs => .dir ⟨p, m.sys, m.mtime⟩ cs
  | .symlink m t => .symlink ⟨p, m.sys, m.mtime⟩ t
  | .special m t => .special ⟨p, m.sys, m.mtime⟩ t

/-- Prepend the copied child node, if one was created, to the destination
directory contents (the on-disk effect of one iteration of the `dcopy`
loop). -/
def keepNode (n : Option FSNode) (name : String) (tail : Entries) : Entries :=
  match n with
  | some node => .cons name node tail
  | none => tail

mutual

/-- Function `copy` (copy.go lines 62-142), the type dispatcher: route a regular file
to `fcopy`, a directory to the directory walk, anything else to the handler
loop over `FileTypeCopyHandlers` — after which `err` is unconditionally
overwritten with `&UnsupportedFileTypeError{...}` (lines 77-80), exactly as
in the source.  If `err` is non-nil the dispatcher returns it at once
(lines 83-85); otherwise it runs the attribute restorer and returns its
result.  The directory branch is `dcopy` (copy.go lines 176-209) inlined:
`os.MkdirAll(destdir, tmpPermissionForDirectory)`, the per-child loop, and
the deferred `os.Chmod(destdir, originalMode)` which runs on every exit
path of the walk. -/
def copy (pol : Policy) (env : RestoreEnv) (src dest : String) (info : FSNode) : CopyOut :=
  let r : CopyOut :=
    if isRegularMode (modeOf info) then fcopy src dest info
    else if isDirMode (modeOf info) then
      match info with
      | .dir m children =>
          let w := dcopyChildren pol env src dest children
          { node := some (.dir ⟨m.perm, none, 0⟩ w.nodes)
            err := w.err
            trace := Event.mkdirAll dest tmpPermissionForDirectory ::
                       (w.trace ++ [Event.chmod dest m.perm.val]) }
      | _ =>
          { node := some (.dir ⟨(metaOf info).perm, none, 0⟩ .nil)
            err := some (.sysErr ("readdir " ++ src))
            trace := [Event.mkdirAll dest tmpPermissionForDirectory,
                      Event.chmod dest (permOf info)] }
    else
      let h := runHandlers FileTypeCopyHandlers src dest info
      { node := h.node, err := some (.unsupported (modeOf info) src), trace := h.trace }
  match r.err with
  | some _ => r
  | none =>
      let rest := restoreAttributes pol env dest info
      let node1 := if pol.PreservePermissions && env.chmodErr.isNone
                   then r.node.map (setPerm (metaOf info).perm) else r.node
      { node := node1, err := rest.1, trace := r.trace ++ rest.2 }

/-- The per-child loop of `dcopy` (copy.go lines 192-206): join the child
paths, recursively dispatch, and apply the per-child error policy — an
`*UnsupportedFileTypeError` is swallowed when `IgnoreUnsupportedFileTypes`
is set, any other error (or an unsupported-type error without that flag)
aborts the walk immediately, keeping what was already copied. -/
def dcopyChildren (pol : Policy) (env : RestoreEnv) (srcdir destdir : String) (es : Entries) :
    WalkOut :=
  match es with
  | .nil => { nodes := .nil, err := none, trace := [] }
  | .cons name child rest =>
      let r := copy pol env (srcdir ++ "/" ++ name) (destdir ++ "/" ++ name) child
      match r.err with
      | none =>
          let w := dcopyChildren pol env srcdir destdir rest
          { nodes := keepNode r.node name w.nodes, err := w.err, trace := r.trace ++ w.trace }
      | some e =>
          if isUnsupported e && pol.IgnoreUnsupportedFileTypes then
            let w := dcopyChildren pol env srcdir destdir rest
            { nodes := keepNode r.node name w.nodes, err := w.err, trace := r.trace ++ w.trace }
          else
            { nodes := keepNode r.node name .nil, err := some e, trace := r.trace }

end

/-- The function `dcopy` (copy.go lines 176-209) as a standalone function
with the source's signature; its directory branch is literally the
expression the dispatcher's directory branch evaluates. -/
def dcopy (pol : Policy) (env : RestoreEnv) (srcdir destdir : String) (info : FSNode) : CopyOut :=
  match info with
  | .dir m children =>
      let w := dcopyChildren pol env srcdir destdir children
      { node := some (.dir ⟨m.perm, none, 0⟩ w.nodes)
        err := w.err
        trace := Event.mkdirAll destdir tmpPermissionForDirectory ::
                   (w.trace ++ [Event.chmod destdir m.perm.val]) }
  | _ =>
      { node := some (.dir ⟨(metaOf info).perm, none, 0⟩ .nil)
        err := some (.sysErr ("readdir " ++ srcdir))
        trace := [Event.mkdirAll destdir tmpPermissionForDirectory,
                  Event.chmod destdir (permOf info)] }

/-- Function `Copy` (copy.go lines 38-57), the entry point: `os.Lstat(src)` (the
source node is given, so the stat succeeds and does not follow a top-level
symlink), dispatch, and the translation of an `*UnsupportedFileTypeError`
into success when `IgnoreUnsupportedFileTypes` is set. -/
def Copy (pol : Policy) (env : RestoreEnv) (src dest : String) (tree : FSNode) : CopyOut :=
  let r := copy pol env src dest tree
  match r.err with
  | some e =>
      if isUnsupported e then
        if !pol.IgnoreUnsupportedFileTypes then r else { r with err := none }
      else r
  | none => r

/-- All four process-wide flags at their default `false` (copy.go lines
20-29). -/
def defaultPolicy : Policy := ⟨false, false, false, false⟩

/-- The default flags with `IgnoreUnsupportedFileTypes` switched on. -/
def ignorePolicy : Policy := ⟨true, false, false, false⟩

/-- A restoration environment in which all three restoration syscalls
succeed. -/
def okEnv : RestoreEnv := ⟨none, none, none⟩

example :
    copy defaultPolicy okEnv ("s") "d" (.symlink ⟨511, none, 0⟩ "/etc/hosts") =
      { node := some (.symlink linkMeta ("/etc/hosts"))
        err := some (.unsupported (modeSymlink + 511) "s")
        trace := [.symlink ("/etc/hosts") "d"] } := by decide

/-- The `os.Mode*` type-bit combinations a real non-regular, non-directory,
non-symlink entry carries on Linux: named pipe, socket, block device,
character device, or irregular file. -/
def specialBitsOK (t : Nat) : Bool :=
  t == modeNamedPipe || t == modeSocket || t == modeDevice ||
    t == modeDevice + modeCharDevice || t == modeIrregular

mutual

/-- Well-formed source tree: every `special` node carries a realistic
type-bit combination (so that the embedding's constructors agree with the
mode-bit tests the dispatcher performs). -/
def WFb : FSNode → Bool
  | .file _ _ => true
  | .dir _ cs => WFe cs
  | .symlink _ _ => true
  | .special _ t => specialBitsOK t

/-- Predicate `WFb` on each entry of a child list. -/
def WFe : Entries → Bool
  | .nil => true
  | .cons _ n rest => WFb n && WFe rest

end

mutual

/-- Does the tree contain a `special` entry (one with no registered
handler) anywhere? -/
def hasSpecial : FSNode → Bool
  | .file _ _ => false
  | .dir _ cs => hasSpecialE cs
  | .symlink _ _ => false
  | .special _ _ => true

/-- Predicate `hasSpecial` over a child list. -/
def hasSpecialE : Entries → Bool
  | .nil => false
  | .cons _ n rest => hasSpecial n || hasSpecialE rest

end

mutual

/-- A tree of regular files and directories only. -/
def plainTree : FSNode → Bool
  | .file _ _ => true
  | .dir _ cs => plainTreeE cs
  | .symlink _ _ => false
  | .special _ _ => false

/-- Predicate `plainTree` over a child list. -/
def plainTreeE : Entries → Bool
  | .nil => true
  | .cons _ n rest => plainTree n && plainTreeE rest

end

mutual

/-- The destination tree a faithful copy of the source produces on the
ideal filesystem: same names, contents, link targets and permission bits;
the destination metadata carries no recorded platform data, and a copied
symlink gets the fixed metadata `os.Symlink` produces. -/
def mirror : FSNode → FSNode
  | .file m c => .file ⟨m.perm, none, 0⟩ c
  | .dir m cs => .dir ⟨m.perm, none, 0⟩ (mirrorE cs)
  | .symlink _ t => .symlink linkMeta t
  | .special m t => .special m t

/-- Function `mirror` over a child list. -/
def mirrorE : Entries → Entries
  | .nil => .nil
  | .cons name n rest => .cons name (mirror n) (mirrorE rest)

end

mutual

/-- The destination tree of a copy that skips unsupported entries: `mirror`
with every `special` entry (and nothing else) removed; `none` when the root
itself is unsupported. -/
def strip : FSNode → Option FSNode
  | .file m c => some (.file ⟨m.perm, none, 0⟩ c)
  | .dir m cs => some (.dir ⟨m.perm, none, 0⟩ (stripE cs))
  | .symlink _ t => some (.symlink linkMeta t)
  | .special _ _ => none

/-- Function `strip` over a child list. -/
def stripE : Entries → Entries
  | .nil => .nil
  | .cons name n rest =>
      match strip n with
      | some n1 => .cons name n1 (stripE rest)
      | none => stripE rest

end

/-- Concatenation of directory-entry lists. -/
def appendE : Entries → Entries → Entries
  | .nil, es2 => es2
  | .cons name n rest, es2 => .cons name n (appendE rest es2)

/-- Is an optional error a present `*UnsupportedFileTypeError`? -/
def isUnsupportedO : Option CErr → Bool
  | some e => isUnsupported e
  | none => false

set_option maxRecDepth 4096

/-- A regular file's mode has no type bits: the dispatcher sends it to
`fcopy`. -/
theorem file_mode_regular : ∀ p : Fin 512, isRegularMode p.val = true := by decide

/-- A directory's mode fails `IsRegular` and passes `IsDir`. -/
theorem dir_mode_dispatch :
    ∀ p : Fin 512, isRegularMode (modeDir + p.val) = false ∧ isDirMode (modeDir + p.val) = true := by
  decide

/-- A symlink's mode fails `IsRegular` and `IsDir`, and intersects the
symlink handler's type bit. -/
theorem symlink_mode_dispatch :
    ∀ p : Fin 512, isRegularMode (modeSymlink + p.val) = false ∧
      isDirMode (modeSymlink + p.val) = false ∧
      ((modeSymlink + p.val) &&& modeSymlink ≠ 0) := by
  decide

/-- A well-formed special entry's mode fails `IsRegular` and `IsDir` and
misses the symlink handler's type bit: no registered handler matches it. -/
theorem special_mode_dispatch (t : Nat) (ht : specialBitsOK t = true) :
    ∀ p : Fin 512, isRegularMode (t + p.val) = false ∧
      isDirMode (t + p.val) = false ∧
      ((t + p.val) &&& modeSymlink = 0) := by
  have h := ht
  simp only [specialBitsOK, Bool.or_eq_true, beq_iff_eq] at h
  rcases h with (((h | h) | h) | h) | h <;> subst h <;> decide

/-- With the three preservation flags off, the attribute restorer does
nothing and returns nil. -/
theorem restore_flagsOff (ig : Bool) (env : RestoreEnv) (d : String) (info : FSNode) :
    restoreAttributes ⟨ig, false, false, false⟩ env d info = (none, []) := rfl

/-- Dispatch of a regular file under any ignore flag with the preservation
flags off: `fcopy` runs, the restorer adds nothing. -/
theorem copy_file_flagsOff (ig : Bool) (env : RestoreEnv) (s d : String) (m : Meta) (c : List Nat) :
    copy ⟨ig, false, false, false⟩ env s d (.file m c) =
      { node := some (.file ⟨m.perm, none, 0⟩ c)
        err := none
        trace := [.mkdirAll (parentOf d) 0o777, .create d, .chmod d m.perm.val] } := by
  have h := file_mode_regular m.perm
  simp [copy, modeOf, h, fcopy, restore_flagsOff]

/-- Dispatch of a directory under any ignore flag with the preservation
flags off: the walk runs, the deferred chmod restores the source mode, and
the restorer adds nothing. -/
theorem copy_dir_flagsOff (ig : Bool) (env : RestoreEnv) (s d : String) (m : Meta) (cs : Entries) :
    copy ⟨ig, false, false, false⟩ env s d (.dir m cs) =
      { node := some (.dir ⟨m.perm, none, 0⟩ (dcopyChildren ⟨ig, false, false, false⟩ env s d cs).nodes)
        err := (dcopyChildren ⟨ig, false, false, false⟩ env s d cs).err
        trace := Event.mkdirAll d tmpPermissionForDirectory ::
          ((dcopyChildren ⟨ig, false, false, false⟩ env s d cs).trace ++ [Event.chmod d m.perm.val]) } := by
  have h1 := (dir_mode_dispatch m.perm).1
  have h2 := (dir_mode_dispatch m.perm).2
  cases he : (dcopyChildren ⟨ig, false, false, false⟩ env s d cs).err <;>
    simp [copy, modeOf, h1, h2, he, restore_flagsOff]

/-- Dispatch of a symlink, any policy and environment: the handler loop
runs `lcopy`, which creates the destination link, after which the
dispatcher unconditionally overwrites `err` with
`&UnsupportedFileTypeError` (copy.go lines 77-80) and returns it without
running the restorer. -/
theorem copy_symlink_eq (pol : Policy) (env : RestoreEnv) (s d : String) (m : Meta) (t : String) :
    copy pol env s d (.symlink m t) =
      { node := some (.symlink linkMeta t)
        err := some (.unsupported (modeSymlink + m.perm.val) s)
        trace := [.symlink t d] } := by
  obtain ⟨h1, h2, h3⟩ := symlink_mode_dispatch m.perm
  simp [copy, modeOf, h1, h2, runHandlers, FileTypeCopyHandlers, h3, lcopy]

/-- Dispatch of a well-formed special entry, any policy and environment: no
handler's type bit matches, nothing is created, and the dispatcher returns
`&UnsupportedFileTypeError`. -/
theorem copy_special_eq (pol : Policy) (env : RestoreEnv) (s d : String) (m : Meta) (t : Nat)
    (ht : specialBitsOK t = true) :
    copy pol env s d (.special m t) =
      { node := none, err := some (.unsupported (t + m.perm.val) s), trace := [] } := by
  obtain ⟨h1, h2, h3⟩ := special_mode_dispatch t ht m.perm
  simp [copy, modeOf, h1, h2, runHandlers, FileTypeCopyHandlers, h3]

/-- Is an entry routed to the handler loop (neither regular nor a
directory)?  Under the dispatch bug of copy.go lines 69-81, exactly these
entries make the dispatcher return an `*UnsupportedFileTypeError`. -/
def topUnhandled : FSNode → Bool
  | .file _ _ => false
  | .dir _ _ => false
  | .symlink _ _ => true
  | .special _ _ => true

mutual

/-- On a tree of regular files and directories only, with the three
preservation flags off, the dispatcher succeeds and produces the mirror of
the source at the destination. -/
theorem copyPlain (ig : Bool) (env : RestoreEnv) :
    ∀ (s d : String) (t : FSNode), plainTree t = true →
      (copy ⟨ig, false, false, false⟩ env s d t).node = some (mirror t) ∧
      (copy ⟨ig, false, false, false⟩ env s d t).err = none
  | _, d, .file m c, _ => by simp [copy_file_flagsOff, mirror]
  | s, d, .dir m cs, h => by
      have hcs : plainTreeE cs = true := by simpa [plainTree] using h
      have ih := walkPlain ig env s d cs hcs
      simp [copy_dir_flagsOff, mirror, ih.1, ih.2]
  | _, _, .symlink m t, h => by simp [plainTree] at h
  | _, _, .special m t, h => by simp [plainTree] at h

/-- Lemma `copyPlain` for the per-child loop. -/
theorem walkPlain (ig : Bool) (env : RestoreEnv) :
    ∀ (sd dd : String) (es : Entries), plainTreeE es = true →
      (dcopyChildren ⟨ig, false, false, false⟩ env sd dd es).nodes = mirrorE es ∧
      (dcopyChildren ⟨ig, false, false, false⟩ env sd dd es).err = none
  | _, _, .nil, _ => by simp [dcopyChildren, mirrorE]
  | sd, dd, .cons name child rest, h => by
      have h1 : plainTree child = true := by
        have := h; simp [plainTreeE, Bool.and_eq_true] at this; exact this.1
      have h2 : plainTreeE rest = true := by
        have := h; simp [plainTreeE, Bool.and_eq_true] at this; exact this.2
      have ihc := copyPlain ig env (sd ++ "/" ++ name) (dd ++ "/" ++ name) child h1
      have ihr := walkPlain ig env sd dd rest h2
      simp [dcopyChildren, ihc.1, ihc.2, ihr.1, ihr.2, keepNode, mirrorE]

end

mutual

/-- With `IgnoreUnsupportedFileTypes` set (and the preservation flags off),
the dispatcher produces at the destination exactly the source tree with
every unsupported `special` entry removed, and returns an error exactly for
the entries the handler loop processed (the dispatch bug reports even a
successfully handled symlink as unsupported). -/
theorem copyIgnore (env : RestoreEnv) :
    ∀ (s d : String) (t : FSNode), WFb t = true →
      (copy (⟨true, false, false, false⟩ : Policy) env s d t).node = strip t ∧
      (copy (⟨true, false, false, false⟩ : Policy) env s d t).err =
        (if topUnhandled t then some (.unsupported (modeOf t) s) else none)
  | _, d, .file m c, _ => by
      simp [copy_file_flagsOff, strip, topUnhandled]
  | s, d, .dir m cs, h => by
      have hcs : WFe cs = true := by simpa [WFb] using h
      have ih := walkIgnore env s d cs hcs
      simp [copy_dir_flagsOff, strip, topUnhandled, ih.1, ih.2]
  | s, d, .symlink m t, _ => by
      simp [copy_symlink_eq, strip, topUnhandled, modeOf]
  | s, d, .special m t, h => by
      have ht : specialBitsOK t = true := by simpa [WFb] using h
      simp [copy_special_eq _ _ _ _ _ _ ht, strip, topUnhandled, modeOf]

/-- Lemma `copyIgnore` for the per-child loop: every unsupported-type error is
swallowed, every other child succeeds, so the walk never fails and keeps
exactly the strippable children. -/
theorem walkIgnore (env : RestoreEnv) :
    ∀ (sd dd : String) (es : Entries), WFe es = true →
      (dcopyChildren (⟨true, false, false, false⟩ : Policy) env sd dd es).nodes = stripE es ∧
      (dcopyChildren (⟨true, false, false, false⟩ : Policy) env sd dd es).err = none
  | _, _, .nil, _ => by simp [dcopyChildren, stripE]
  | sd, dd, .cons name child rest, h => by
      have h1 : WFb child = true := by
        have := h; simp [WFe, Bool.and_eq_true] at this; exact this.1
      have h2 : WFe rest = true := by
        have := h; simp [WFe, Bool.and_eq_true] at this; exact this.2
      have ihc := copyIgnore env (sd ++ "/" ++ name) (dd ++ "/" ++ name) child h1
      have ihr := walkIgnore env sd dd rest h2
      cases child with
      | file m c =>
          simp [topUnhandled] at ihc
          simp [dcopyChildren, ihc.1, ihc.2, ihr.1, ihr.2, keepNode, stripE, strip]
      | dir m cs =>
          simp [topUnhandled] at ihc
          simp [dcopyChildren, ihc.1, ihc.2, ihr.1, ihr.2, keepNode, stripE, strip]
      | symlink m t =>
          simp [topUnhandled] at ihc
          simp [dcopyChildren, ihc.1, ihc.2, ihr.1, ihr.2, keepNode, stripE, strip,
                isUnsupported]
      | special m t =>
          simp [topUnhandled] at ihc
          simp [dcopyChildren, ihc.1, ihc.2, ihr.1, ihr.2, keepNode, stripE, strip,
                isUnsupported]

end

mutual

/-- With all flags at their defaults, on a well-formed tree, the only error
the dispatcher can produce is an `*UnsupportedFileTypeError` (content
copies cannot fail on the ideal filesystem and the restorer is off). -/
theorem copyDefaultErr (env : RestoreEnv) :
    ∀ (s d : String) (t : FSNode), WFb t = true →
      (copy (⟨false, false, false, false⟩ : Policy) env s d t).err = none ∨
      isUnsupportedO ((copy (⟨false, false, false, false⟩ : Policy) env s d t).err) = true
  | _, d, .file m c, _ => by simp [copy_file_flagsOff]
  | s, d, .dir m cs, h => by
      have hcs : WFe cs = true := by simpa [WFb] using h
      have ih := walkDefaultErr env s d cs hcs
      rcases ih with ih | ih <;> simp [copy_dir_flagsOff, ih]
  | s, d, .symlink m t, _ => by simp [copy_symlink_eq, isUnsupportedO, isUnsupported]
  | s, d, .special m t, h => by
      have ht : specialBitsOK t = true := by simpa [WFb] using h
      simp [copy_special_eq _ _ _ _ _ _ ht, isUnsupportedO, isUnsupported]

/-- Lemma `copyDefaultErr` for the per-child loop. -/
theorem walkDefaultErr (env : RestoreEnv) :
    ∀ (sd dd : String) (es : Entries), WFe es = true →
      (dcopyChildren (⟨false, false, false, false⟩ : Policy) env sd dd es).err = none ∨
      isUnsupportedO ((dcopyChildren (⟨false, false, false, false⟩ : Policy) env sd dd es).err) = true
  | _, _, .nil, _ => by simp [dcopyChildren]
  | sd, dd, .cons name child rest, h => by
      have h1 : WFb child = true := by
        have := h; simp [WFe, Bool.and_eq_true] at this; exact this.1
      have h2 : WFe rest = true := by
        have := h; simp [WFe, Bool.and_eq_true] at this; exact this.2
      have ihc := copyDefaultErr env (sd ++ "/" ++ name) (dd ++ "/" ++ name) child h1
      have ihr := walkDefaultErr env sd dd rest h2
      rcases ihc with hc | hc
      · rcases ihr with hr | hr <;> simp [dcopyChildren, hc, hr]
      · cases he : (copy (⟨false, false, false, false⟩ : Policy) env (sd ++ "/" ++ name)
            (dd ++ "/" ++ name) child).err with
        | none => rcases ihr with hr | hr <;> simp [dcopyChildren, he, hr]
        | some e =>
            right
            rw [he] at hc
            simp only [isUnsupportedO] at hc
            simp [dcopyChildren, he, hc, isUnsupportedO]

end

mutual

/-- With all flags at their defaults, a well-formed tree containing an
unsupported special entry anywhere makes the dispatcher fail, and the
error it returns is an `*UnsupportedFileTypeError`. -/
theorem copyDefaultSpecialErr (env : RestoreEnv) :
    ∀ (s d : String) (t : FSNode), WFb t = true → hasSpecial t = true →
      isUnsupportedO ((copy (⟨false, false, false, false⟩ : Policy) env s d t).err) = true
  | _, _, .file m c, _, hs => by simp [hasSpecial] at hs
  | s, d, .dir m cs, h, hs => by
      have hcs : WFe cs = true := by simpa [WFb] using h
      have hse : hasSpecialE cs = true := by simpa [hasSpecial] using hs
      have ih := walkDefaultSpecialErr env s d cs hcs hse
      simpa [copy_dir_flagsOff] using ih
  | _, _, .symlink m t, _, hs => by simp [hasSpecial] at hs
  | s, d, .special m t, h, _ => by
      have ht : specialBitsOK t = true := by simpa [WFb] using h
      simp [copy_special_eq _ _ _ _ _ _ ht, isUnsupportedO, isUnsupported]

/-- Lemma `copyDefaultSpecialErr` for the per-child loop. -/
theorem walkDefaultSpecialErr (env : RestoreEnv) :
    ∀ (sd dd : String) (es : Entries), WFe es = true → hasSpecialE es = true →
      isUnsupportedO ((dcopyChildren (⟨false, false, false, false⟩ : Policy) env sd dd es).err) = true
  | _, _, .nil, _, hs => by simp [hasSpecialE] at hs
  | sd, dd, .cons name child rest, h, hs => by
      have h1 : WFb child = true := by
        have := h; simp [WFe, Bool.and_eq_true] at this; exact this.1
      have h2 : WFe rest = true := by
        have := h; simp [WFe, Bool.and_eq_true] at this; exact this.2
      by_cases hc : hasSpecial child = true
      · have ihc := copyDefaultSpecialErr env (sd ++ "/" ++ name) (dd ++ "/" ++ name) child h1 hc
        cases he : (copy (⟨false, false, false, false⟩ : Policy) env (sd ++ "/" ++ name)
            (dd ++ "/" ++ name) child).err with
        | none => rw [he] at ihc; simp [isUnsupportedO] at ihc
        | some e =>
            rw [he] at ihc
            simp only [isUnsupportedO] at ihc
            simp [dcopyChildren, he, ihc, isUnsupportedO]
      · have hr : hasSpecialE rest = true := by
          have := hs; simp [hasSpecialE, Bool.or_eq_true] at this
          rcases this with hx | hx
          · exact absurd hx hc
          · exact hx
        have ihr := walkDefaultSpecialErr env sd dd rest h2 hr
        have ihc2 := copyDefaultErr env (sd ++ "/" ++ name) (dd ++ "/" ++ name) child h1
        rcases ihc2 with hok | hbad
        · simp [dcopyChildren, hok, ihr]
        · cases he : (copy (⟨false, false, false, false⟩ : Policy) env (sd ++ "/" ++ name)
              (dd ++ "/" ++ name) child).err with
          | none => simp [dcopyChildren, he, ihr]
          | some e =>
              rw [he] at hbad
              simp only [isUnsupportedO] at hbad
              simp [dcopyChildren, he, hbad, isUnsupportedO]

end

/-- Wrapper `Copy` only translates the returned error; what was created on disk is
the dispatcher's doing. -/
theorem Copy_node (pol : Policy) (env : RestoreEnv) (s d : String) (t : FSNode) :
    (Copy pol env s d t).node = (copy pol env s d t).node := by
  simp only [Copy]
  cases he : (copy pol env s d t).err with
  | none => rfl
  | some e =>
      cases h : isUnsupported e <;> cases hig : pol.IgnoreUnsupportedFileTypes <;> simp [h, hig]

/-- Wrapper `Copy` leaves the syscall trace of the dispatch unchanged. -/
theorem Copy_trace (pol : Policy) (env : RestoreEnv) (s d : String) (t : FSNode) :
    (Copy pol env s d t).trace = (copy pol env s d t).trace := by
  simp only [Copy]
  cases he : (copy pol env s d t).err with
  | none => rfl
  | some e =>
      cases h : isUnsupported e <;> cases hig : pol.IgnoreUnsupportedFileTypes <;> simp [h, hig]

/-- C4: `Copy` on a source path that is itself a symlink does not
dereference it: for every policy and environment the destination node is a
symlink, and its target string is exactly the source link's target string,
unresolved and unmodified. -/
theorem c4_symlink_fidelity (pol : Policy) (env : RestoreEnv) (src dest : String)
    (m : Meta) (target : String) :
    (Copy pol env src dest (.symlink m target)).node = some (.symlink linkMeta target) := by
  rw [Copy_node, copy_symlink_eq]

/-- C10: when the dispatcher processes a symlink with the default handler
registered and link creation succeeds, the destination link exists on disk
even though the dispatch call returns an `*UnsupportedFileTypeError`; with
`IgnoreUnsupportedFileTypes` at its default `false`, `Copy` itself returns
that error while the destination link has nevertheless been created. -/
theorem c10_link_created_despite_error (env : RestoreEnv) (src dest : String)
    (m : Meta) (target : String) :
    (copy defaultPolicy env src dest (.symlink m target)).node =
      some (.symlink linkMeta target) ∧
    (copy defaultPolicy env src dest (.symlink m target)).err =
      some (.unsupported (modeSymlink + m.perm.val) src) ∧
    (Copy defaultPolicy env src dest (.symlink m target)).err =
      some (.unsupported (modeSymlink + m.perm.val) src) ∧
    (Copy defaultPolicy env src dest (.symlink m target)).node =
      some (.symlink linkMeta target) := by
  refine ⟨?_, ?_, ?_, ?_⟩
  · rw [copy_symlink_eq]
  · rw [copy_symlink_eq]
  · simp [defaultPolicy, Copy, copy_symlink_eq, isUnsupported]
  · rw [Copy_node, copy_symlink_eq]

/-- C6: for a well-formed source tree containing an entry of a special type
with no registered handler: with `IgnoreUnsupportedFileTypes = false`,
`Copy` returns an `*UnsupportedFileTypeError` (the copy aborts); with the
flag `true`, `Copy` succeeds and the destination tree contains exactly
every entry except the unsupported ones. -/
theorem c6_unsupported_type_policy (env : RestoreEnv) (s d : String) (t : FSNode)
    (hwf : WFb t = true) (hs : hasSpecial t = true) :
    isUnsupportedO ((Copy defaultPolicy env s d t).err) = true ∧
    (Copy ignorePolicy env s d t).err = none ∧
    (Copy ignorePolicy env s d t).node = strip t := by
  refine ⟨?_, ?_, ?_⟩
  · have h := copyDefaultSpecialErr env s d t hwf hs
    cases he : (copy (⟨false, false, false, false⟩ : Policy) env s d t).err with
    | none => rw [he] at h; simp [isUnsupportedO] at h
    | some e =>
        rw [he] at h
        simp only [isUnsupportedO] at h
        simp [defaultPolicy, Copy, he, h, isUnsupportedO]
  · have h := (copyIgnore env s d t hwf).2
    cases hT : topUnhandled t with
    | false =>
        rw [hT] at h; simp at h
        simp [ignorePolicy, Copy, h]
    | true =>
        rw [hT] at h; simp at h
        simp [ignorePolicy, Copy, h, isUnsupported]
  · rw [Copy_node]
    have h := (copyIgnore env s d t hwf).1
    simpa [ignorePolicy] using h

/-- A source tree for the unsupported-type scenario: two regular files with
a named pipe between them. -/
def c6tree : FSNode :=
  .dir ⟨493, none, 0⟩
    (.cons ("a") (.file ⟨420, none, 0⟩ [7])
      (.cons ("p") (.special ⟨438, none, 0⟩ modeNamedPipe)
        (.cons ("b") (.file ⟨420, none, 0⟩ [8]) .nil)))

/-- Witness for `c6_unsupported_type_policy` at `c6tree`. -/
theorem c6_unsupported_type_policy_witness :
    WFb c6tree = true ∧ hasSpecial c6tree = true ∧
    (isUnsupportedO ((Copy defaultPolicy okEnv ("s") "d" c6tree).err) = true ∧
     (Copy ignorePolicy okEnv ("s") "d" c6tree).err = none ∧
     (Copy ignorePolicy okEnv ("s") "d" c6tree).node = strip c6tree) :=
  ⟨by decide, by decide,
    c6_unsupported_type_policy okEnv ("s") "d" c6tree (by decide) (by decide)⟩

/-- On a tree of files and directories the mirror preserves the permission
bits of the root. -/
theorem permOf_mirror_plain (t : FSNode) (h : plainTree t = true) :
    permOf (mirror t) = permOf t := by
  cases t <;> simp_all [plainTree, mirror, permOf, metaOf, linkMeta]

/-- The source directory of the preserve-off scenario: mode 0700, holding
one file with mode 0640. -/
def c5tree : FSNode :=
  .dir ⟨448, none, 0⟩ (.cons ("f") (.file ⟨416, none, 0⟩ [1, 2, 3]) .nil)

/-- C5, counterexample: with all four flags at their default `false`,
copying a directory of mode 0700 (448) succeeds, but the destination
directory's final mode is 448, not the transient 0755 (493) the claim says
is left in place, and the destination file's mode is the source file's
0640 (416), carried over by the explicit chmod in `fcopy` — not whatever
the creation call produced. -/
theorem c5_counterexample :
    (Copy defaultPolicy okEnv ("s") "d" c5tree).err = none ∧
    Option.map permOf (Copy defaultPolicy okEnv ("s") "d" c5tree).node = some 448 ∧
    (448 : Nat) ≠ tmpPermissionForDirectory ∧
    (Copy defaultPolicy okEnv ("s") "d" c5tree).node =
      some (.dir ⟨448, none, 0⟩ (.cons ("f") (.file ⟨416, none, 0⟩ [1, 2, 3]) .nil)) := by
  decide

/-- C5, amended: with all four flags at their default `false`, a copy of a
tree of regular files and directories succeeds and reproduces the source's
permission bits everywhere — the deferred chmod of `dcopy` restores each
directory's source mode over the transient 0755, and `fcopy`'s explicit
chmod gives each file its source mode. -/
theorem c5_preserve_off_modes (env : RestoreEnv) (s d : String) (t : FSNode)
    (h : plainTree t = true) :
    (Copy defaultPolicy env s d t).err = none ∧
    (Copy defaultPolicy env s d t).node = some (mirror t) ∧
    Option.map permOf ((Copy defaultPolicy env s d t)).node = some (permOf t) := by
  have hc := copyPlain false env s d t h
  refine ⟨?_, ?_, ?_⟩
  · simp [defaultPolicy, Copy, hc.2]
  · rw [Copy_node]
    simpa [defaultPolicy] using hc.1
  · rw [Copy_node]
    have : (copy defaultPolicy env s d t).node = some (mirror t) := by
      simpa [defaultPolicy] using hc.1
    rw [this]
    simp [permOf_mirror_plain t h]

/-- Witness for `c5_preserve_off_modes` at `c5tree`. -/
theorem c5_preserve_off_modes_witness :
    plainTree c5tree = true ∧
    ((Copy defaultPolicy okEnv ("s") "d" c5tree).err = none ∧
     (Copy defaultPolicy okEnv ("s") "d" c5tree).node = some (mirror c5tree) ∧
     Option.map permOf ((Copy defaultPolicy okEnv ("s") "d" c5tree)).node =
       some (permOf c5tree)) :=
  ⟨by decide, c5_preserve_off_modes okEnv ("s") "d" c5tree (by decide)⟩

/-- Every entry of the list is a regular file. -/
def allFilesE : Entries → Bool
  | .nil => true
  | .cons _ n rest =>
      (match n with
       | .file _ _ => true
       | _ => false) && allFilesE rest

/-- A list of regular files is a plain tree list. -/
theorem allFilesE_plain : ∀ es : Entries, allFilesE es = true → plainTreeE es = true
  | .nil, _ => rfl
  | .cons name n rest, h => by
      simp only [allFilesE, Bool.and_eq_true] at h
      have hr := allFilesE_plain rest h.2
      cases n <;> simp_all [plainTreeE, plainTree]

/-- C7: copying a read-only directory (mode 0500 = 320) containing files
succeeds: the walk first creates the destination directory with the
writable transient mode `tmpPermissionForDirectory` (0755), the contents
are copied correctly, and the true mode 0500 ends up on the destination
directory because the scheduled restoration chmod is the last syscall of
every `dcopy` call, on every exit path, for every input. -/
theorem c7_readonly_source_dir (env : RestoreEnv) (s d : String) (m : Meta) (es : Entries)
    (hperm : m.perm = 320) (_hne : es ≠ .nil) (hfiles : allFilesE es = true) :
    (Copy defaultPolicy env s d (.dir m es)).err = none ∧
    (Copy defaultPolicy env s d (.dir m es)).node = some (.dir ⟨320, none, 0⟩ (mirrorE es)) ∧
    (Copy defaultPolicy env s d (.dir m es)).trace.head? =
      some (.mkdirAll d tmpPermissionForDirectory) ∧
    Option.map permOf (Copy defaultPolicy env s d (.dir m es)).node = some 320 ∧
    (∀ (pol : Policy) (env2 : RestoreEnv) (s2 d2 : String) (info : FSNode),
      (dcopy pol env2 s2 d2 info).trace.getLast? = some (.chmod d2 (permOf info))) := by
  have hplain : plainTree (.dir m es) = true := by
    simp [plainTree, allFilesE_plain es hfiles]
  have hc := copyPlain false env s d (.dir m es) hplain
  refine ⟨?_, ?_, ?_, ?_, ?_⟩
  · simp [defaultPolicy, Copy, hc.2]
  · rw [Copy_node]
    have := hc.1
    simpa [defaultPolicy, mirror, hperm] using this
  · rw [Copy_trace]
    have hcd := copy_dir_flagsOff false env s d m es
    have : (copy defaultPolicy env s d (.dir m es)).trace =
        Event.mkdirAll d tmpPermissionForDirectory ::
          ((dcopyChildren (⟨false, false, false, false⟩ : Policy) env s d es).trace ++
            [Event.chmod d m.perm.val]) := by
      simp [defaultPolicy, hcd]
    rw [this]
    rfl
  · rw [Copy_node]
    have : (copy defaultPolicy env s d (.dir m es)).node =
        some (mirror (.dir m es)) := by
      simpa [defaultPolicy] using hc.1
    rw [this]
    simp [mirror, permOf, metaOf, hperm]
    decide
  · intro pol env2 s2 d2 info
    cases info with
    | dir m2 cs =>
        simp only [dcopy]
        rw [show Event.mkdirAll d2 tmpPermissionForDirectory ::
              ((dcopyChildren pol env2 s2 d2 cs).trace ++ [Event.chmod d2 m2.perm.val]) =
            (Event.mkdirAll d2 tmpPermissionForDirectory ::
              (dcopyChildren pol env2 s2 d2 cs).trace) ++ [Event.chmod d2 m2.perm.val]
          from rfl]
        rw [List.getLast?_concat]
        simp [permOf, metaOf]
    | file m2 c => rfl
    | symlink m2 t => rfl
    | special m2 t => rfl

/-- The children of the read-only directory scenario: one regular file. -/
def c7tree : Entries := .cons ("f") (.file ⟨420, none, 0⟩ [9]) .nil

/-- Witness for `c7_readonly_source_dir` at a mode-0500 directory holding
one file. -/
theorem c7_readonly_source_dir_witness :
    ((⟨320, none, 0⟩ : Meta).perm = 320 ∧ c7tree ≠ .nil ∧ allFilesE c7tree = true) ∧
    ((Copy defaultPolicy okEnv ("s") "d" (.dir ⟨320, none, 0⟩ c7tree)).err = none ∧
     (Copy defaultPolicy okEnv ("s") "d" (.dir ⟨320, none, 0⟩ c7tree)).node =
       some (.dir ⟨320, none, 0⟩ (mirrorE c7tree)) ∧
     (Copy defaultPolicy okEnv ("s") "d" (.dir ⟨320, none, 0⟩ c7tree)).trace.head? =
       some (.mkdirAll ("d") tmpPermissionForDirectory) ∧
     Option.map permOf (Copy defaultPolicy okEnv ("s") "d" (.dir ⟨320, none, 0⟩ c7tree)).node =
       some 320 ∧
     (∀ (pol : Policy) (env2 : RestoreEnv) (s2 d2 : String) (info : FSNode),
       (dcopy pol env2 s2 d2 info).trace.getLast? = some (.chmod d2 (permOf info)))) :=
  ⟨⟨by decide, by decide, by decide⟩,
    c7_readonly_source_dir okEnv ("s") "d" ⟨320, none, 0⟩ c7tree (by decide) (by decide) (by decide)⟩

/-- Function `keepNode` distributes over appending of entry lists. -/
theorem keepNode_appendE (n : Option FSNode) (name : String) (a b : Entries) :
    keepNode n name (appendE a b) = appendE (keepNode n name a) b := by
  cases n <;> simp [keepNode, appendE]

/-- If the walk over a first batch of children finishes without error, the
walk over the concatenation runs the first batch, then the second, and
concatenates what they create and their traces; the error is the second
batch's. -/
theorem dcopyChildren_append (pol : Policy) (env : RestoreEnv) (sd dd : String) :
    ∀ es1 es2 : Entries, (dcopyChildren pol env sd dd es1).err = none →
      dcopyChildren pol env sd dd (appendE es1 es2) =
        { nodes := appendE (dcopyChildren pol env sd dd es1).nodes
            (dcopyChildren pol env sd dd es2).nodes
          err := (dcopyChildren pol env sd dd es2).err
          trace := (dcopyChildren pol env sd dd es1).trace ++
            (dcopyChildren pol env sd dd es2).trace }
  | .nil, es2, _ => by simp [dcopyChildren, appendE]
  | .cons name child rest, es2, h => by
      simp only [dcopyChildren] at h ⊢
      cases he : (copy pol env (sd ++ "/" ++ name) (dd ++ "/" ++ name) child).err with
      | none =>
          rw [he] at h
          simp only at h
          have ih := dcopyChildren_append pol env sd dd rest es2 h
          simp [appendE, he, ih, keepNode_appendE]
      | some e =>
          rw [he] at h
          simp only at h
          cases hu : (isUnsupported e && pol.IgnoreUnsupportedFileTypes) with
          | false => rw [hu] at h; simp at h
          | true =>
              rw [hu] at h
              simp only [if_true] at h
              have ih := dcopyChildren_append pol env sd dd rest es2 h
              simp [appendE, he, hu, ih, keepNode_appendE]

/-- C8: per-child error policy of the directory walk.  If the children
before some failing child all copy without error and that child's dispatch
returns an error `e`, then: when `e` is an unsupported-type error and the
ignore policy is enabled, the walk swallows `e` and continues into the
remaining children; in every other case the walk returns `e` itself
immediately — its trace stops with the failing child's syscalls, so no
further child is attempted, while everything the earlier siblings created
stays in the destination (no rollback). -/
theorem c8_per_child_error_policy (pol : Policy) (env : RestoreEnv) (sd dd : String)
    (pre : Entries) (name : String) (child : FSNode) (rest : Entries) (e : CErr)
    (hpre : (dcopyChildren pol env sd dd pre).err = none)
    (herr : (copy pol env (sd ++ "/" ++ name) (dd ++ "/" ++ name) child).err = some e) :
    ((isUnsupported e && pol.IgnoreUnsupportedFileTypes) = true →
      (dcopyChildren pol env sd dd (appendE pre (.cons name child rest))).err =
        (dcopyChildren pol env sd dd rest).err ∧
      (dcopyChildren pol env sd dd (appendE pre (.cons name child rest))).nodes =
        appendE (dcopyChildren pol env sd dd pre).nodes
          (keepNode (copy pol env (sd ++ "/" ++ name) (dd ++ "/" ++ name) child).node name
            (dcopyChildren pol env sd dd rest).nodes) ∧
      (dcopyChildren pol env sd dd (appendE pre (.cons name child rest))).trace =
        (dcopyChildren pol env sd dd pre).trace ++
          ((copy pol env (sd ++ "/" ++ name) (dd ++ "/" ++ name) child).trace ++
            (dcopyChildren pol env sd dd rest).trace)) ∧
    ((isUnsupported e && pol.IgnoreUnsupportedFileTypes) = false →
      (dcopyChildren pol env sd dd (appendE pre (.cons name child rest))).err = some e ∧
      (dcopyChildren pol env sd dd (appendE pre (.cons name child rest))).nodes =
        appendE (dcopyChildren pol env sd dd pre).nodes
          (keepNode (copy pol env (sd ++ "/" ++ name) (dd ++ "/" ++ name) child).node name .nil) ∧
      (dcopyChildren pol env sd dd (appendE pre (.cons name child rest))).trace =
        (dcopyChildren pol env sd dd pre).trace ++
          (copy pol env (sd ++ "/" ++ name) (dd ++ "/" ++ name) child).trace) := by
  have hall := dcopyChildren_append pol env sd dd pre (.cons name child rest) hpre
  constructor
  · intro hu
    rw [hall]
    simp [dcopyChildren, herr, hu]
  · intro hu
    rw [hall]
    simp [dcopyChildren, herr, hu]

/-- Earlier sibling of the failing child in the walk-policy scenario. -/
def c8pre : Entries := .cons ("a") (.file ⟨420, none, 0⟩ [1]) .nil

/-- The failing child of the walk-policy scenario: a named pipe. -/
def c8child : FSNode := .special ⟨438, none, 0⟩ modeNamedPipe

/-- Later sibling of the failing child in the walk-policy scenario. -/
def c8rest : Entries := .cons ("b") (.file ⟨420, none, 0⟩ [2]) .nil

/-- The error the failing child's dispatch returns. -/
def c8err : CErr := .unsupported (modeNamedPipe + 438) ("s" ++ "/" ++ "p")

/-- Witness for `c8_per_child_error_policy` with a named pipe between two
regular files under the default policy. -/
theorem c8_per_child_error_policy_witness :
    (dcopyChildren defaultPolicy okEnv ("s") "d" c8pre).err = none ∧
    (copy defaultPolicy okEnv ("s" ++ "/" ++ "p") ("d" ++ "/" ++ "p") c8child).err = some c8err ∧
    (((isUnsupported c8err && defaultPolicy.IgnoreUnsupportedFileTypes) = true →
      (dcopyChildren defaultPolicy okEnv ("s") "d" (appendE c8pre (.cons ("p") c8child c8rest))).err =
        (dcopyChildren defaultPolicy okEnv ("s") "d" c8rest).err ∧
      (dcopyChildren defaultPolicy okEnv ("s") "d" (appendE c8pre (.cons ("p") c8child c8rest))).nodes =
        appendE (dcopyChildren defaultPolicy okEnv ("s") "d" c8pre).nodes
          (keepNode (copy defaultPolicy okEnv ("s" ++ "/" ++ "p") ("d" ++ "/" ++ "p") c8child).node ("p")
            (dcopyChildren defaultPolicy okEnv ("s") "d" c8rest).nodes) ∧
      (dcopyChildren defaultPolicy okEnv ("s") "d" (appendE c8pre (.cons ("p") c8child c8rest))).trace =
        (dcopyChildren defaultPolicy okEnv ("s") "d" c8pre).trace ++
          ((copy defaultPolicy okEnv ("s" ++ "/" ++ "p") ("d" ++ "/" ++ "p") c8child).trace ++
            (dcopyChildren defaultPolicy okEnv ("s") "d" c8rest).trace)) ∧
    ((isUnsupported c8err && defaultPolicy.IgnoreUnsupportedFileTypes) = false →
      (dcopyChildren defaultPolicy okEnv ("s") "d" (appendE c8pre (.cons ("p") c8child c8rest))).err =
        some c8err ∧
      (dcopyChildren defaultPolicy okEnv ("s") "d" (appendE c8pre (.cons ("p") c8child c8rest))).nodes =
        appendE (dcopyChildren defaultPolicy okEnv ("s") "d" c8pre).nodes
          (keepNode (copy defaultPolicy okEnv ("s" ++ "/" ++ "p") ("d" ++ "/" ++ "p") c8child).node ("p") .nil) ∧
      (dcopyChildren defaultPolicy okEnv ("s") "d" (appendE c8pre (.cons ("p") c8child c8rest))).trace =
        (dcopyChildren defaultPolicy okEnv ("s") "d" c8pre).trace ++
          (copy defaultPolicy okEnv ("s" ++ "/" ++ "p") ("d" ++ "/" ++ "p") c8child).trace)) :=
  ⟨by decide, by decide,
    c8_per_child_error_policy defaultPolicy okEnv ("s") "d" c8pre ("p") c8child c8rest c8err
      (by decide) (by decide)⟩

/-- Assignment `stat, _ = info.Sys().(*syscall.Stat_t)` (copy.go lines 96-99): the
platform data, looked up only when ownership or timestamps are to be
restored. -/
def statGate (pol : Policy) (info : FSNode) : Option SysStat :=
  if pol.PreserveOwner || pol.PreserveTime then (metaOf info).sys else none

/-- The failure the permission step contributes, depending only on its own
flag and on the chmod outcome. -/
def permFailures (pol : Policy) (env : RestoreEnv) (dest : String) (info : FSNode) : List TaskErr :=
  if pol.PreservePermissions then
    match env.chmodErr with
    | some g => [.permFail (permOf info) dest g]
    | none => []
  else []

/-- The value of the Go local `err` after the permission step. -/
def permErrAfter (pol : Policy) (env : RestoreEnv) (dest : String) (info : FSNode) : Option TaskErr :=
  if pol.PreservePermissions then
    match env.chmodErr with
    | some g => some (.permFail (permOf info) dest g)
    | none => none
  else none

/-- The failure the ownership step contributes, depending only on its own
flag, the platform data, and the lchown outcome (plus the stale `err` value
its no-data message wraps). -/
def ownerFailures (pol : Policy) (env : RestoreEnv) (dest : String) (info : FSNode) : List TaskErr :=
  if pol.PreserveOwner then
    match statGate pol info with
    | some s =>
        match env.lchownErr with
        | some g => [.ownerFail s.uid s.gid dest g]
        | none => []
    | none => [.ownerNoStat dest (staleOf (permErrAfter pol env dest info))]
  else []

/-- The value of the Go local `err` after the ownership step. -/
def ownerErrAfter (pol : Policy) (env : RestoreEnv) (dest : String) (info : FSNode) : Option TaskErr :=
  if pol.PreserveOwner then
    match statGate pol info with
    | some s =>
        match env.lchownErr with
        | some g => some (.ownerFail s.uid s.gid dest g)
        | none => none
    | none => some (.ownerNoStat dest (staleOf (permErrAfter pol env dest info)))
  else permErrAfter pol env dest info

/-- The failure the timestamp step contributes, depending only on its own
flag, the platform data, and the chtimes outcome. -/
def timeFailures (pol : Policy) (env : RestoreEnv) (dest : String) (info : FSNode) : List TaskErr :=
  if pol.PreserveTime then
    match statGate pol info with
    | some _ =>
        match env.chtimesErr with
        | some g => [.timeFail (metaOf info).mtime dest g]
        | none => []
    | none => [.timeNoStat dest (staleOf (ownerErrAfter pol env dest info))]
  else []

/-- The syscall the permission step performs when enabled and successful. -/
def permAttempts (pol : Policy) (env : RestoreEnv) (dest : String) (info : FSNode) : List Event :=
  if pol.PreservePermissions then
    match env.chmodErr with
    | some _ => []
    | none => [.chmod dest (permOf info)]
  else []

/-- The syscall the ownership step performs when enabled and successful. -/
def ownerAttempts (pol : Policy) (env : RestoreEnv) (dest : String) (info : FSNode) : List Event :=
  if pol.PreserveOwner then
    match statGate pol info with
    | some s =>
        match env.lchownErr with
        | some _ => []
        | none => [.lchown dest s.uid s.gid]
    | none => []
  else []

/-- The syscall the timestamp step performs when enabled and successful. -/
def timeAttempts (pol : Policy) (env : RestoreEnv) (dest : String) (info : FSNode) : List Event :=
  if pol.PreserveTime then
    match statGate pol info with
    | some _ =>
        match env.chtimesErr with
        | some _ => []
        | none => [.chtimes dest]
    | none => []
  else []

/-- C9: the attribute restorer attempts each enabled restoration step
regardless of whether an earlier one failed — the failures and syscalls
each category contributes depend only on that category's flag, the
platform data, and its own syscall's outcome — and the result is nil
exactly when zero failures were collected, otherwise a single
`*FileCopyTasksError` referencing the destination path and carrying the
ordered concatenation of the three categories' failures, each retaining
its underlying message. -/
theorem c9_restorer_aggregation (pol : Policy) (env : RestoreEnv) (dest : String)
    (info : FSNode) :
    (restoreAttributes pol env dest info).1 =
      (if (permFailures pol env dest info ++ ownerFailures pol env dest info ++
            timeFailures pol env dest info).isEmpty then none
       else some (.tasks dest (permFailures pol env dest info ++
         ownerFailures pol env dest info ++ timeFailures pol env dest info))) ∧
    (restoreAttributes pol env dest info).2 =
      permAttempts pol env dest info ++ ownerAttempts pol env dest info ++
        timeAttempts pol env dest info := by
  rcases pol with ⟨ig, pp, po, pt⟩
  rcases env with ⟨ce, le, te⟩
  cases pp <;> cases po <;> cases pt <;> cases ce <;> cases le <;> cases te <;>
    cases hsys : (metaOf info).sys <;>
      simp [restoreAttributes, permFailures, ownerFailures, timeFailures, permErrAfter,
        ownerErrAfter, permAttempts, ownerAttempts, timeAttempts, statGate, staleOf, hsys]

/-- A source tree containing only directories, symlinks and regular files:
a symlink to /etc/hosts followed by a regular file. -/
def c1tree : FSNode :=
  .dir ⟨493, none, 0⟩
    (.cons ("link") (.symlink ⟨511, none, 0⟩ "/etc/hosts")
      (.cons ("a.txt") (.file ⟨420, none, 0⟩ [104, 105]) .nil))

/-- C1, evaluated at the failing input: although `c1tree` contains only a
directory, a symlink and a regular file, `Copy` under the default flags
returns an `*UnsupportedFileTypeError` for the symlink (the dispatcher
overwrites the successful handler's nil error, copy.go lines 70-80), the
walk aborts, and the destination lacks `a.txt` — the copy neither succeeds
nor reproduces the source tree. -/
theorem c1_symlink_tree_copy_fails :
    WFb c1tree = true ∧ hasSpecial c1tree = false ∧
    (Copy defaultPolicy okEnv ("s") "d" c1tree).err =
      some (.unsupported (modeSymlink + 511) ("s" ++ "/" ++ "link")) ∧
    (Copy defaultPolicy okEnv ("s") "d" c1tree).node =
      some (.dir ⟨493, none, 0⟩ (.cons ("link") (.symlink linkMeta ("/etc/hosts")) .nil)) := by
  decide

/-- C2, evaluated at a symlink: the registry's symlink handler's type bit
matches the entry's mode and the handler succeeds (the destination link is
created), yet the dispatcher still reports `*UnsupportedFileTypeError`,
because copy.go lines 77-80 construct it unconditionally after the handler
loop. -/
theorem c2_handler_match_still_unsupported :
    (modeOf (.symlink ⟨511, none, 0⟩ "/etc/hosts") &&& modeSymlink ≠ 0) ∧
    (lcopy ("s") "d" (.symlink ⟨511, none, 0⟩ "/etc/hosts")).err = none ∧
    (copy defaultPolicy okEnv ("s") "d" (.symlink ⟨511, none, 0⟩ "/etc/hosts")).node =
      some (.symlink linkMeta ("/etc/hosts")) ∧
    (copy defaultPolicy okEnv ("s") "d" (.symlink ⟨511, none, 0⟩ "/etc/hosts")).err =
      some (.unsupported (modeSymlink + 511) "s") := by
  decide

/-- All three preservation flags on, ignore off. -/
def preserveAllPolicy : Policy := ⟨false, true, true, true⟩

/-- A symlink whose descriptor carries platform stat data. -/
def c3link : FSNode := .symlink ⟨511, some ⟨1000, 1000, 5, 0⟩, 7⟩ "/etc/hosts"

/-- A regular file whose descriptor carries platform stat data. -/
def c3file : FSNode := .file ⟨420, some ⟨1000, 1000, 5, 0⟩, 7⟩ [1]

/-- C3, evaluated at the failing input: after the symlink handler's
successful content copy the dispatcher does **not** run the attribute
restorer — its trace holds only the link creation, no chmod/lchown/chtimes,
and its result is the unsupported-type error rather than the restorer's
nil — although the restorer on the same entry would have succeeded.  On
the regular-file branch, by contrast, the restorer does run and its result
is what the dispatch call returns. -/
theorem c3_restorer_skipped_on_handler_path :
    (copy preserveAllPolicy okEnv ("s") "d" c3link).err =
      some (.unsupported (modeSymlink + 511) "s") ∧
    (copy preserveAllPolicy okEnv ("s") "d" c3link).trace = [.symlink ("/etc/hosts") "d"] ∧
    (restoreAttributes preserveAllPolicy okEnv ("d") c3link).1 = none ∧
    (restoreAttributes preserveAllPolicy okEnv ("d") c3link).2 =
      [.chmod ("d") 511, .lchown ("d") 1000 1000, .chtimes ("d")] ∧
    (copy preserveAllPolicy okEnv ("s") "d" c3file).err =
      (restoreAttributes preserveAllPolicy okEnv ("d") c3file).1 ∧
    (copy preserveAllPolicy okEnv ("s") "d" c3file).trace =
      [.mkdirAll (parentOf ("d")) 511, .create ("d"), .chmod ("d") 420] ++
        (restoreAttributes preserveAllPolicy okEnv ("d") c3file).2 := by
  decide
